import Mathlib

/-!
Shallow embedding of the grading backend (src/backend1.py) and proofs about
its `grade` request handler.

The handler (lines 79-129 of backend1.py) does the following:
  * parses the request body as JSON (silently; an unparseable body becomes
    None, and a falsy parse result is replaced by the empty dict),
  * extracts and strips the `essay` field, answering 400 when it is empty,
  * otherwise issues one chat-completion call (model "gpt-4o-mini",
    temperature 0.2, a fixed system rubric plus one user message),
  * strips the reply text and resolves it to JSON: strict `json.loads`
    first, then a greedy brace-span repair on `re.search` of the pattern
    "open brace, anything, close brace" with DOTALL,
  * checks that seven required keys are present and answers 200/502,
  * wraps everything in a try/except that maps any raised exception to a
    500 response carrying `str(e)`.

We model Python JSON values by the inductive type `Json` (numbers keep
their source lexeme: the handler never interprets them numerically, only
truthiness is needed, so the lexeme representation is faithful), model
`json.loads` as a fuel-based recursive-descent parser `jsonLoads`
following CPython's `json` module (strict mode: the four JSON whitespace
characters, no leading zeros, string escapes including surrogate pairs,
the constants NaN, Infinity and -Infinity, duplicate object keys resolved as
by a Python dict, trailing non-whitespace rejected as extra data), and
model the exceptions that the handler's own code can raise
(`AttributeError` from `.get`/`.strip`/`.keys` on the wrong type, and the
uncaught `JSONDecodeError` of the second `json.loads`) by the type
`PyExn`.  Unicode niceties outside the claims (lone surrogate escapes,
non-ASCII Python whitespace in `str.strip`) are noted where they are
approximated.
-/

namespace Backend1

/-- The opening brace character (written via its code point). -/
def lbrace : Char := Char.ofNat 123

/-- The closing brace character (written via its code point). -/
def rbrace : Char := Char.ofNat 125

/-- JSON whitespace as accepted between tokens by CPython's json module. -/
def isJsonWs (c : Char) : Bool :=
  c = ' ' || c = '\t' || c = '\n' || c = '\x0d'

/-- ASCII whitespace as stripped by Python str.strip (space, tab, newline,
carriage return, vertical tab, form feed).  Python also strips non-ASCII
Unicode whitespace, which does not occur in any input considered here. -/
def pyIsSpace (c : Char) : Bool :=
  c = ' ' || c = '\t' || c = '\n' || c = '\x0d' || c = '\x0b' || c = '\x0c'

/-- Python str.strip: drop leading and trailing whitespace. -/
def pyStrip (l : List Char) : List Char :=
  ((l.dropWhile pyIsSpace).reverse.dropWhile pyIsSpace).reverse

/-- Python JSON values.  Numbers keep their source lexeme (the handler never
does arithmetic on them; only Python truthiness is needed, which
`numIsZero` recovers from the lexeme).  Objects are key/value lists in
dict insertion order. -/
inductive Json where
  | null : Json
  | bool : Bool → Json
  | num : String → Json
  | str : String → Json
  | arr : List Json → Json
  | obj : List (String × Json) → Json
deriving Repr, Inhabited

/-- A JSON number lexeme denotes zero iff every mantissa digit is 0
(the exponent part after e/E is irrelevant, the sign is ignored).
NaN and the infinities contain other letters and are never zero. -/
def numIsZero (s : String) : Bool :=
  let mantissa := (s.toList.takeWhile (fun c => c ≠ 'e' ∧ c ≠ 'E')).filter
    (fun c => c ≠ '-' ∧ c ≠ '.')
  !mantissa.isEmpty && mantissa.all (fun c => c = '0')

/-- Python truthiness of a JSON value (None, False, 0, empty containers and
the empty string are falsy). -/
def jsonTruthy : Json → Bool
  | Json.null => false
  | Json.bool b => b
  | Json.num s => !(numIsZero s)
  | Json.str s => !(s.isEmpty)
  | Json.arr xs => !(xs.isEmpty)
  | Json.obj kvs => !(kvs.isEmpty)

/-- The Python type name of a JSON value, as it appears in AttributeError
messages.  A number is an int unless its lexeme has a fraction, an
exponent, or is one of the float constants. -/
def pyTypeName : Json → String
  | Json.null => "NoneType"
  | Json.bool _ => "bool"
  | Json.num s =>
      if s.toList.any (fun c => c = '.' ∨ c = 'e' ∨ c = 'E' ∨ c = 'N' ∨ c = 'I')
      then "float" else "int"
  | Json.str _ => "str"
  | Json.arr _ => "list"
  | Json.obj _ => "dict"

/-- Parse errors (JSONDecodeError messages; CPython adds line/column
positions, which we do not reproduce - no claim depends on them). -/
abbrev PErr := String

/-- Skip JSON whitespace. -/
def skipWs (l : List Char) : List Char := l.dropWhile isJsonWs

/-- Value of a hex digit. -/
def hexVal (c : Char) : Option Nat :=
  if '0' ≤ c ∧ c ≤ '9' then some (c.toNat - 48)
  else if 'a' ≤ c ∧ c ≤ 'f' then some (c.toNat - 87)
  else if 'A' ≤ c ∧ c ≤ 'F' then some (c.toNat - 86)
  else none

/-- Four hex digits of a \uXXXX escape. -/
def parseU4 : List Char → Option (Nat × List Char)
  | a :: b :: c :: d :: rest =>
    match hexVal a, hexVal b, hexVal c, hexVal d with
    | some x, some y, some z, some w => some (((x * 16 + y) * 16 + z) * 16 + w, rest)
    | _, _, _, _ => none
  | _ => none

/-- Body of a JSON string, after the opening quote: returns the decoded
characters and the input after the closing quote.  Strict mode: raw
control characters are rejected; escapes are the eight JSON ones plus
\uXXXX with surrogate-pair combination (a lone surrogate, which Python
would keep as-is, falls outside Lean Char and maps to the null
character - it occurs in no input considered here). -/
def strBody : Nat → List Char → List Char → Except PErr (String × List Char)
  | 0, _, _ => Except.error "Unterminated string"
  | _, [], _ => Except.error "Unterminated string"
  | fuel + 1, c :: cs, acc =>
    if c = '"' then Except.ok (acc.reverse.asString, cs)
    else if c = '\\' then
      match cs with
      | [] => Except.error "Unterminated string"
      | e :: cs2 =>
        if e = '"' then strBody fuel cs2 ('"' :: acc)
        else if e = '\\' then strBody fuel cs2 ('\\' :: acc)
        else if e = '/' then strBody fuel cs2 ('/' :: acc)
        else if e = 'b' then strBody fuel cs2 ('\x08' :: acc)
        else if e = 'f' then strBody fuel cs2 ('\x0c' :: acc)
        else if e = 'n' then strBody fuel cs2 ('\n' :: acc)
        else if e = 'r' then strBody fuel cs2 ('\x0d' :: acc)
        else if e = 't' then strBody fuel cs2 ('\t' :: acc)
        else if e = 'u' then
          match parseU4 cs2 with
          | none => Except.error "Invalid hex escape"
          | some (n, cs3) =>
            if 0xD800 ≤ n ∧ n < 0xDC00 then
              match cs3 with
              | b1 :: u1 :: cs4 =>
                if b1 = '\\' ∧ u1 = 'u' then
                  match parseU4 cs4 with
                  | some (m, cs5) =>
                    if 0xDC00 ≤ m ∧ m < 0xE000 then
                      strBody fuel cs5
                        (Char.ofNat (0x10000 + (n - 0xD800) * 0x400 + (m - 0xDC00)) :: acc)
                    else strBody fuel cs4 (Char.ofNat m :: Char.ofNat n :: acc)
                  | none => Except.error "Invalid hex escape"
                else strBody fuel cs3 (Char.ofNat n :: acc)
              | _ => strBody fuel cs3 (Char.ofNat n :: acc)
            else strBody fuel cs3 (Char.ofNat n :: acc)
        else Except.error "Invalid escape"
    else if c.toNat < 0x20 then Except.error "Invalid control character"
    else strBody fuel cs (c :: acc)

/-- Exponent part of a number lexeme ([eE][-+]?digits); none when the
input does not start with a complete exponent. -/
def lexExp (l : List Char) : Option (List Char × List Char) :=
  match l with
  | e :: rest =>
    if e = 'e' ∨ e = 'E' then
      let (sgn, r1) :=
        match rest with
        | '+' :: r => ((['+'] : List Char), r)
        | '-' :: r => ((['-'] : List Char), r)
        | _ => (([] : List Char), rest)
      match r1 with
      | d :: _ =>
        if d.isDigit then
          some (e :: sgn ++ r1.takeWhile Char.isDigit, r1.dropWhile Char.isDigit)
        else none
      | [] => none
    else none
  | [] => none

/-- Lexeme of a JSON number starting at the head of the input, following
CPython's NUMBER_RE: optional minus, 0 or nonzero-led digits, optional
fraction, optional exponent.  Returns the lexeme and the rest. -/
def lexNumber (l : List Char) : Option (List Char × List Char) :=
  let (sign, l1) :=
    match l with
    | '-' :: rest => ((['-'] : List Char), rest)
    | _ => (([] : List Char), l)
  match l1 with
  | c :: cs =>
    if c = '0' ∨ ('1' ≤ c ∧ c ≤ '9') then
      let (ds, l2) :=
        if c = '0' then (([] : List Char), cs)
        else (cs.takeWhile Char.isDigit, cs.dropWhile Char.isDigit)
      let intPart := sign ++ c :: ds
      let (fracPart, l3) :=
        match l2 with
        | '.' :: d :: rest =>
          if d.isDigit then
            ('.' :: d :: rest.takeWhile Char.isDigit, rest.dropWhile Char.isDigit)
          else (([] : List Char), l2)
        | _ => (([] : List Char), l2)
      let (expPart, l4) :=
        match lexExp l3 with
        | some (ex, r) => (ex, r)
        | none => (([] : List Char), l3)
      some (intPart ++ fracPart ++ expPart, l4)
    else none
  | [] => none

/-- Elements of an array after the first has been read is handled by this
loop: `pv` parses one value (the value parser one fuel level down), the
Nat fuel bounds the number of elements. -/
def arrLoop : Nat → (List Char → Except PErr (Json × List Char)) →
    List Char → List Json → Except PErr (Json × List Char)
  | 0, _, _, _ => Except.error "Out of fuel"
  | n + 1, pv, l, acc =>
    match pv l with
    | Except.error e => Except.error e
    | Except.ok (v, r) =>
      match skipWs r with
      | c :: r2 =>
        if c = ']' then Except.ok (Json.arr (v :: acc).reverse, r2)
        else if c = ',' then arrLoop n pv (skipWs r2) (v :: acc)
        else Except.error "Expecting comma delimiter"
      | [] => Except.error "Expecting comma delimiter"

/-- Insert a key into an assoc list with Python dict semantics: a duplicate
key keeps its original position and takes the new value. -/
def insertKV : List (String × Json) → String → Json → List (String × Json)
  | [], k, v => [(k, v)]
  | (k0, v0) :: rest, k, v =>
    if k0 = k then (k0, v) :: rest else (k0, v0) :: insertKV rest k v

/-- Members of an object (from the first key onward): parse a string key,
a colon, a value, then a comma or the closing brace. -/
def objLoop : Nat → (List Char → Except PErr (Json × List Char)) →
    List Char → List (String × Json) → Except PErr (Json × List Char)
  | 0, _, _, _ => Except.error "Out of fuel"
  | n + 1, pv, l, acc =>
    match l with
    | c :: cs =>
      if c = '"' then
        match strBody (cs.length + 1) cs [] with
        | Except.error e => Except.error e
        | Except.ok (k, r) =>
          match skipWs r with
          | ':' :: r2 =>
            match pv (skipWs r2) with
            | Except.error e => Except.error e
            | Except.ok (v, r3) =>
              let acc2 := insertKV acc k v
              match skipWs r3 with
              | d :: r4 =>
                if d = rbrace then Except.ok (Json.obj acc2, r4)
                else if d = ',' then
                  match skipWs r4 with
                  | e :: r5 =>
                    if e = '"' then objLoop n pv (e :: r5) acc2
                    else Except.error "Expecting property name enclosed in double quotes"
                  | [] => Except.error "Expecting property name enclosed in double quotes"
                else Except.error "Expecting comma delimiter"
              | [] => Except.error "Expecting comma delimiter"
          | _ => Except.error "Expecting colon delimiter"
      else Except.error "Expecting property name enclosed in double quotes"
    | [] => Except.error "Expecting property name enclosed in double quotes"

/-- One JSON value at the head of the input (no leading whitespace).
Fuel bounds the nesting depth; `jsonLoads` supplies enough of it. -/
def parseVal : Nat → List Char → Except PErr (Json × List Char)
  | 0, _ => Except.error "Out of fuel"
  | fuel + 1, l =>
    match l with
    | [] => Except.error "Expecting value"
    | c :: cs =>
      if c = '"' then
        match strBody (cs.length + 1) cs [] with
        | Except.error e => Except.error e
        | Except.ok (s, r) => Except.ok (Json.str s, r)
      else if c = lbrace then
        match skipWs cs with
        | d :: r =>
          if d = rbrace then Except.ok (Json.obj [], r)
          else objLoop (cs.length + 1) (parseVal fuel) (d :: r) []
        | [] => Except.error "Expecting property name enclosed in double quotes"
      else if c = '[' then
        match skipWs cs with
        | d :: r =>
          if d = ']' then Except.ok (Json.arr [], r)
          else arrLoop (cs.length + 1) (parseVal fuel) (d :: r) []
        | [] => Except.error "Expecting value"
      else if l.take 4 = ['n', 'u', 'l', 'l'] then Except.ok (Json.null, l.drop 4)
      else if l.take 4 = ['t', 'r', 'u', 'e'] then Except.ok (Json.bool true, l.drop 4)
      else if l.take 5 = ['f', 'a', 'l', 's', 'e'] then Except.ok (Json.bool false, l.drop 5)
      else if l.take 3 = ['N', 'a', 'N'] then Except.ok (Json.num "NaN", l.drop 3)
      else if l.take 8 = ['I', 'n', 'f', 'i', 'n', 'i', 't', 'y'] then
        Except.ok (Json.num "Infinity", l.drop 8)
      else if l.take 9 = ['-', 'I', 'n', 'f', 'i', 'n', 'i', 't', 'y'] then
        Except.ok (Json.num "-Infinity", l.drop 9)
      else
        match lexNumber l with
        | some (lex, r) => Except.ok (Json.num lex.asString, r)
        | none => Except.error "Expecting value"

/-- Python json.loads: skip leading whitespace, parse one value, skip
trailing whitespace, reject anything left over as extra data. -/
def jsonLoads (l : List Char) : Except PErr Json :=
  match parseVal (l.length + 1) (skipWs l) with
  | Except.error e => Except.error e
  | Except.ok (v, rest) =>
    if (skipWs rest).isEmpty then Except.ok v else Except.error "Extra data"

/-- Index of the first occurrence of a character, if any. -/
def firstIdx : List Char → Char → Option Nat
  | [], _ => none
  | c :: cs, t => if c = t then some 0 else (firstIdx cs t).map (· + 1)

/-- Index of the last occurrence of a character, if any. -/
def lastIdx (l : List Char) (t : Char) : Option Nat :=
  match firstIdx l.reverse t with
  | none => none
  | some k => some (l.length - 1 - k)

/-- The span matched by re.search of the greedy pattern "open brace,
anything, close brace" with DOTALL (backend1.py line 111): from the first
opening brace to the last closing brace, provided the latter comes after
the former; none when there is no such match. -/
def extractBraceSpan (l : List Char) : Option (List Char) :=
  match firstIdx l lbrace, lastIdx l rbrace with
  | some i, some j => if i < j then some ((l.drop i).take (j - i + 1)) else none
  | _, _ => none

/-- The Python exceptions the handler's own statements can raise: an
AttributeError from calling .get, .strip or .keys on a value of the wrong
type, and the JSONDecodeError of the second json.loads (line 115), which
is outside the inner try and therefore uncaught until the outer handler. -/
inductive PyExn where
  | attributeError : String → PyExn
  | jsonDecodeError : String → PyExn
deriving Repr, DecidableEq

/-- str(e) for a modelled exception. -/
def PyExn.message : PyExn → String
  | PyExn.attributeError m => m
  | PyExn.jsonDecodeError m => m

/-- The AttributeError raised by calling the named attribute on a value of
the named type, with CPython's message. -/
def noAttr (tyName attrName : String) : PyExn :=
  PyExn.attributeError
    ("\x27" ++ tyName ++ "\x27 object has no attribute \x27" ++ attrName ++ "\x27")

/-- An HTTP response of the handler: status code and JSON body. -/
structure HttpResp where
  status : Nat
  body : Json
deriving Repr

/-- One chat message (role, content). -/
structure ChatMsg where
  role : String
  content : String
deriving Repr, DecidableEq

/-- The argument of the single chat-completions call (backend1.py lines
96-103).  The float literal 0.2 is modelled by the rational 1/5. -/
structure CompletionRequest where
  model : String
  temperature : ℚ
  messages : List ChatMsg
deriving Repr, DecidableEq

/-- The fixed system rubric (backend1.py lines 60-68). -/
def RUBRIC : String :=
  "You are a strict TOEFL Writing grader.\n" ++
  "Rate on 5 dimensions from 1-5: task_response, organization, language_use, development, mechanics.\n" ++
  "Compute overall_score (1-5) as the rounded average.\n" ++
  "Return ONLY a compact JSON object with keys:\n" ++
  "task_response, organization, language_use, development, mechanics, overall_score, concise_rationale.\n" ++
  "concise_rationale must be 1-2 sentences, actionable.\n" ++
  "Be consistent across essays of varying length; do not reward length alone.\n"

/-- The user prompt built from the essay (backend1.py lines 90-94): the
essay verbatim between triple-quote delimiters, then the JSON-only
instruction. -/
def userPrompt (essay : String) : String :=
  "Essay:\n" ++ "\"\"\"" ++ essay ++ "\"\"\"" ++ "\n\n" ++
  "Respond with ONLY JSON, no extra text.\n"

/-- The completion request the handler issues for a given essay. -/
def mkCompletionRequest (essay : String) : CompletionRequest :=
  ⟨"gpt-4o-mini", 1 / 5, [⟨"system", RUBRIC⟩, ⟨"user", userPrompt essay⟩]⟩

/-- A JSON body of the form with a single "error" field. -/
def errBody (msg : String) : Json := Json.obj [("error", Json.str msg)]

/-- A JSON error body with an attached "raw" field. -/
def errRawBody (msg : String) (raw : Json) : Json :=
  Json.obj [("error", Json.str msg), ("raw", raw)]

/-- Python dict.get on an assoc list (None, i.e. absent, when missing). -/
def lookupKey : List (String × Json) → String → Option Json
  | [], _ => none
  | (k, v) :: rest, key => if k = key then some v else lookupKey rest key

/-- backend1.py line 82: `data = request.get_json(force=True, silent=True) or
{}`.  The body argument is the outcome of the silent JSON parse (none for
an unparseable body, which get_json turns into None); the `or` replaces
any falsy result by the empty dict. -/
def dataOf (body : Option Json) : Json :=
  match body with
  | none => Json.obj []
  | some v => if jsonTruthy v then v else Json.obj []

/-- backend1.py line 83: `essay = (data.get("essay") or "").strip()`.
Calling .get on a non-dict raises AttributeError, as does .strip on a
truthy non-string field value; a falsy field value (or an absent key,
i.e. None) is replaced by the empty string by the `or`. -/
def essayOf (data : Json) : Except PyExn String :=
  match data with
  | Json.obj kvs =>
    let got := (lookupKey kvs "essay").getD Json.null
    let v := if jsonTruthy got then got else Json.str ""
    match v with
    | Json.str s => Except.ok (pyStrip s.toList).asString
    | other => Except.error (noAttr (pyTypeName other) "strip")
  | other => Except.error (noAttr (pyTypeName other) "get")

/-- Outcome of the part of the handler before the external call: either an
early response (the 400) or the completion request to issue. -/
inductive Phase1 where
  | resp : HttpResp → Phase1
  | call : CompletionRequest → Phase1

/-- backend1.py lines 82-103: request decoding, the empty-essay 400, and
the construction of the single completion call. -/
def gradePhase1 (body : Option Json) : Except PyExn Phase1 :=
  match essayOf (dataOf body) with
  | Except.error e => Except.error e
  | Except.ok essay =>
    if essay.isEmpty then
      Except.ok (Phase1.resp ⟨400, errBody "Essay text required"⟩)
    else
      Except.ok (Phase1.call (mkCompletionRequest essay))

/-- backend1.py lines 108-115: resolve the stripped reply text to JSON.
Strict json.loads first; on JSONDecodeError, look for the greedy brace
span: no span gives the 502 non-JSON response, and a span that fails to
parse raises (the second json.loads is inside the except block, so its
JSONDecodeError is NOT caught here). -/
def resolveReply (text : List Char) : Except PyExn (Json ⊕ HttpResp) :=
  match jsonLoads text with
  | Except.ok v => Except.ok (Sum.inl v)
  | Except.error _ =>
    match extractBraceSpan text with
    | none =>
      Except.ok (Sum.inr
        ⟨502, errRawBody "Model returned non-JSON response" (Json.str text.asString)⟩)
    | some span =>
      match jsonLoads span with
      | Except.ok v => Except.ok (Sum.inl v)
      | Except.error m => Except.error (PyExn.jsonDecodeError m)

/-- The seven required keys (backend1.py lines 117-120). -/
def requiredKeys : List String :=
  ["task_response", "organization", "language_use",
   "development", "mechanics", "overall_score", "concise_rationale"]

/-- The keys of an object, in order. -/
def keysOf (kvs : List (String × Json)) : List String := kvs.map Prod.fst

/-- backend1.py lines 117-125: `required.issubset(result.keys())`, then the
200 with the object passed through unchanged, or the 502 for missing keys
with the partial object attached.  Calling .keys() on a non-dict raises
AttributeError. -/
def checkKeys (result : Json) : Except PyExn HttpResp :=
  match result with
  | Json.obj kvs =>
    if requiredKeys.all (fun k => (keysOf kvs).contains k) then
      Except.ok ⟨200, Json.obj kvs⟩
    else
      Except.ok ⟨502, errRawBody "Missing keys in model output" (Json.obj kvs)⟩
  | other => Except.error (noAttr (pyTypeName other) "keys")

/-- backend1.py lines 105-125: strip the reply content (None becomes the
empty string), resolve it to JSON, validate the keys. -/
def gradePhase2 (content : Option String) : Except PyExn HttpResp :=
  let text := pyStrip (content.getD "").toList
  match resolveReply text with
  | Except.error e => Except.error e
  | Except.ok (Sum.inr r) => Except.ok r
  | Except.ok (Sum.inl v) => checkKeys v

/-- The body of the handler's try block (backend1.py lines 82-125): the
`content` argument is the text of the single completion call's reply
(None models a null message content), consumed only when phase 1 decides
to make that call. -/
def gradeInner (body : Option Json) (content : Option String) : Except PyExn HttpResp :=
  match gradePhase1 body with
  | Except.error e => Except.error e
  | Except.ok (Phase1.resp r) => Except.ok r
  | Except.ok (Phase1.call _) => gradePhase2 content

/-- The full handler (backend1.py lines 79-129): the outer try/except maps
any exception raised in the flow to a 500 response carrying str(e). -/
def grade (body : Option Json) (content : Option String) : HttpResp :=
  match gradeInner body content with
  | Except.ok r => r
  | Except.error e => ⟨500, errBody e.message⟩

/-! ### Helper lemmas about the handler -/

/-- A request body used in concrete witnesses: the JSON object with a
single non-empty essay field. -/
def sampleBody : Option Json :=
  some (Json.obj [("essay", Json.str "The weather is nice.")])

/-- The early response of phase 1 can only be the empty-essay 400. -/
theorem gradePhase1_resp_eq (body : Option Json) (r : HttpResp)
    (h : gradePhase1 body = Except.ok (Phase1.resp r)) :
    r = ⟨400, errBody "Essay text required"⟩ := by
  unfold gradePhase1 at h
  cases he : essayOf (dataOf body) with
  | error e => rw [he] at h; exact absurd h (by simp)
  | ok s =>
    rw [he] at h
    by_cases hs : s.isEmpty <;> simp [hs] at h
    exact h.symm

/-- A response produced by the key check has status 200 or 502. -/
theorem checkKeys_ok_status (v : Json) (r : HttpResp)
    (h : checkKeys v = Except.ok r) : r.status = 200 ∨ r.status = 502 := by
  unfold checkKeys at h
  cases v <;> simp at h
  split at h <;> simp at h <;> rw [← h]
  · exact Or.inl rfl
  · exact Or.inr rfl

/-- A response produced by phase 2 has status 200 or 502. -/
theorem gradePhase2_ok_status (content : Option String) (r : HttpResp)
    (h : gradePhase2 content = Except.ok r) :
    r.status = 200 ∨ r.status = 502 := by
  unfold gradePhase2 at h
  dsimp only at h
  cases hr : resolveReply (pyStrip (content.getD "").toList) with
  | error e => rw [hr] at h; exact absurd h (by simp)
  | ok s =>
    rw [hr] at h
    cases s with
    | inl v => exact checkKeys_ok_status v r h
    | inr r2 =>
      simp at h
      unfold resolveReply at hr
      split at hr
      · simp at hr
      · split at hr
        · simp only [Except.ok.injEq, Sum.inr.injEq] at hr
          right
          rw [← h, ← hr]
        · split at hr <;> simp at hr

/-! ### The claims -/

/-- C1, counterexample: a request body that is valid JSON but not an
object - here the array [1, 2, 3] - certainly has no essay field, yet the
handler does not answer 400: data.get raises AttributeError, and the
outer handler answers 500.  The claim, which promises 400 for every
request without an essay field, is false at this input. -/
theorem nonobject_body_gives_500 :
    (grade (some (Json.arr [Json.num "1", Json.num "2", Json.num "3"])) none).status = 500 ∧
    (grade (some (Json.arr [Json.num "1", Json.num "2", Json.num "3"])) none).status ≠ 400 := by
  have h5 : (grade (some (Json.arr [Json.num "1", Json.num "2", Json.num "3"])) none).status
      = 500 := rfl
  exact ⟨h5, by rw [h5]; decide⟩

/-- C1 (corrected): whenever the essay extraction of backend1.py line 83
completes and yields the empty string - which is what happens when the
body is unparseable (None), parses to a falsy value or to an object
without an essay field, or the essay value is falsy or a string that
strips to whitespace - the handler answers 400 with the "Essay text
required" body and phase 1 never reaches the completion call.  (A truthy
non-object body instead raises AttributeError, hence the correction.) -/
theorem empty_essay_gives_400 (body : Option Json) (content : Option String)
    (h : essayOf (dataOf body) = Except.ok "") :
    grade body content = ⟨400, errBody "Essay text required"⟩ ∧
    ∀ req, gradePhase1 body ≠ Except.ok (Phase1.call req) := by
  have h1 : gradePhase1 body =
      Except.ok (Phase1.resp ⟨400, errBody "Essay text required"⟩) := by
    unfold gradePhase1
    rw [h]
    rfl
  refine ⟨?_, ?_⟩
  · unfold grade gradeInner
    rw [h1]
  · intro req hc
    rw [h1] at hc
    simp at hc

/-- C1 witness: an essay of spaces only strips to empty and gets the 400. -/
theorem empty_essay_gives_400_w :
    grade (some (Json.obj [("essay", Json.str "   ")])) none =
      ⟨400, errBody "Essay text required"⟩ :=
  (empty_essay_gives_400 (some (Json.obj [("essay", Json.str "   ")])) none rfl).1

/-- C2 (confirmed): when the stripped reply strict-parses as a JSON object
containing the seven required keys, the handler answers 200 with exactly
the parsed object: no coercion, clamping or re-validation of the scores
happens, since the body is the parsed object itself, unchanged. -/
theorem strict_object_passthrough_200 (body : Option Json) (reply : String)
    (req : CompletionRequest) (kvs : List (String × Json))
    (h1 : gradePhase1 body = Except.ok (Phase1.call req))
    (h2 : jsonLoads (pyStrip reply.toList) = Except.ok (Json.obj kvs))
    (h3 : requiredKeys.all (fun k => (keysOf kvs).contains k) = true) :
    grade body (some reply) = ⟨200, Json.obj kvs⟩ := by
  simp only [grade, gradeInner, h1, gradePhase2, Option.getD_some, resolveReply, h2,
    checkKeys, h3, if_true]

set_option maxRecDepth 100000 in
/-- C2 witness: the scenario of the spec, with the seven-key reply. -/
theorem strict_object_passthrough_200_w :
    grade sampleBody (some ("\x7b\"task_response\":3,\"organization\":3,\"language_use\":3," ++
        "\"development\":3,\"mechanics\":3,\"overall_score\":3," ++
        "\"concise_rationale\":\"Too short; needs development.\"\x7d")) =
      ⟨200, Json.obj
        [("task_response", Json.num "3"), ("organization", Json.num "3"),
         ("language_use", Json.num "3"), ("development", Json.num "3"),
         ("mechanics", Json.num "3"), ("overall_score", Json.num "3"),
         ("concise_rationale", Json.str "Too short; needs development.")]⟩ :=
  strict_object_passthrough_200 sampleBody _
    (mkCompletionRequest "The weather is nice.") _ rfl rfl rfl

/-- C4, counterexample: the reply whose brace span fails to parse - here
the braces around the word oops - does not get the claimed 502: the
second json.loads raises inside the except block, the outer handler
catches it, and the caller gets a 500. -/
theorem bad_span_gives_500 :
    (grade sampleBody (some "\x7boops\x7d")).status = 500 ∧
    (grade sampleBody (some "\x7boops\x7d")).status ≠ 502 := by
  have h5 : (grade sampleBody (some "\x7boops\x7d")).status = 500 := rfl
  exact ⟨h5, by rw [h5]; decide⟩

/-- C4 (corrected): when strict parsing fails, a brace span is found, and
the span itself fails to parse, the JSONDecodeError of the second
json.loads (line 115, inside the except block and therefore not caught by
it) propagates to the outer handler: the caller gets HTTP 500 with the
exception message, not the 502 diagnostic. -/
theorem bad_span_raises_to_500 (body : Option Json) (reply : String)
    (req : CompletionRequest) (span : List Char) (pmsg msg : PErr)
    (h1 : gradePhase1 body = Except.ok (Phase1.call req))
    (h2 : jsonLoads (pyStrip reply.toList) = Except.error pmsg)
    (h3 : extractBraceSpan (pyStrip reply.toList) = some span)
    (h4 : jsonLoads span = Except.error msg) :
    grade body (some reply) = ⟨500, errBody msg⟩ := by
  simp only [grade, gradeInner, h1, gradePhase2, Option.getD_some, resolveReply,
    h2, h3, h4]
  rfl

/-- C4 witness for the corrected claim, at the same reply. -/
theorem bad_span_raises_to_500_w :
    grade sampleBody (some "\x7boops\x7d") =
      ⟨500, errBody "Expecting property name enclosed in double quotes"⟩ :=
  bad_span_raises_to_500 sampleBody _ (mkCompletionRequest "The weather is nice.")
    "\x7boops\x7d".toList "Expecting property name enclosed in double quotes"
    "Expecting property name enclosed in double quotes" rfl rfl rfl rfl

/-- C5, counterexample: the reply consisting of the single character 5 has
no brace-delimited substring, yet the handler does not answer the claimed
502: the text strict-parses as the number 5, the key check then calls
.keys() on an int, and the AttributeError surfaces as a 500. -/
theorem braceless_parse_ok_gives_500 :
    (grade sampleBody (some "5")).status = 500 ∧
    (grade sampleBody (some "5")).status ≠ 502 := by
  have h5 : (grade sampleBody (some "5")).status = 500 := rfl
  exact ⟨h5, by rw [h5]; decide⟩

/-- C5 (corrected): for a reply whose stripped text fails strict JSON
parsing and contains no brace-delimited span, the handler answers 502
with the non-JSON error and the stripped text in the raw field. -/
theorem braceless_unparsed_gives_502 (body : Option Json) (reply : String)
    (req : CompletionRequest) (pmsg : PErr)
    (h1 : gradePhase1 body = Except.ok (Phase1.call req))
    (h2 : jsonLoads (pyStrip reply.toList) = Except.error pmsg)
    (h3 : extractBraceSpan (pyStrip reply.toList) = none) :
    grade body (some reply) =
      ⟨502, errRawBody "Model returned non-JSON response"
        (Json.str (pyStrip reply.toList).asString)⟩ := by
  simp only [grade, gradeInner, h1, gradePhase2, Option.getD_some, resolveReply, h2, h3]

/-- C5 witness for the corrected claim: the spec scenario reply. -/
theorem braceless_unparsed_gives_502_w :
    grade sampleBody (some "I cannot grade this.") =
      ⟨502, errRawBody "Model returned non-JSON response"
        (Json.str "I cannot grade this.")⟩ :=
  braceless_unparsed_gives_502 sampleBody "I cannot grade this."
    (mkCompletionRequest "The weather is nice.") "Expecting value" rfl rfl rfl

/-- C6 (confirmed): when the reply resolves (strictly or via the brace-span
repair) to a JSON object missing at least one of the seven required keys,
the handler answers 502 with the missing-keys error and the partial
object in the raw field. -/
theorem missing_keys_give_502 (body : Option Json) (reply : String)
    (req : CompletionRequest) (kvs : List (String × Json)) (k : String)
    (h1 : gradePhase1 body = Except.ok (Phase1.call req))
    (h2 : resolveReply (pyStrip reply.toList) = Except.ok (Sum.inl (Json.obj kvs)))
    (h3 : k ∈ requiredKeys) (h4 : k ∉ keysOf kvs) :
    grade body (some reply) =
      ⟨502, errRawBody "Missing keys in model output" (Json.obj kvs)⟩ := by
  have hall : (requiredKeys.all fun k2 => (keysOf kvs).contains k2) = false := by
    cases hall : requiredKeys.all fun k2 => (keysOf kvs).contains k2 with
    | false => rfl
    | true =>
      exfalso
      have hc := List.all_eq_true.mp hall k h3
      exact h4 (by simpa using hc)
  simp only [grade, gradeInner, h1, gradePhase2, Option.getD_some, h2, checkKeys, hall,
    Bool.false_eq_true, if_false]

/-- C6 witness: a reply with only one of the seven keys. -/
theorem missing_keys_give_502_w :
    grade sampleBody (some "\x7b\"task_response\":3\x7d") =
      ⟨502, errRawBody "Missing keys in model output"
        (Json.obj [("task_response", Json.num "3")])⟩ :=
  missing_keys_give_502 sampleBody _ (mkCompletionRequest "The weather is nice.")
    [("task_response", Json.num "3")] "organization" rfl rfl (by decide) (by decide)

/-- C7 (confirmed): the handler is total and its outer try/except is the
only exit for exceptions: every response status is one of 200, 400, 500
or 502; whenever the inner flow raises, the response is exactly the 500
carrying str(e); and whenever it does not, its response is returned
untouched (no retry, nothing escapes). -/
theorem outer_handler_catches_all (body : Option Json) (content : Option String) :
    ((grade body content).status = 200 ∨ (grade body content).status = 400 ∨
     (grade body content).status = 500 ∨ (grade body content).status = 502) ∧
    (∀ e, gradeInner body content = Except.error e →
      grade body content = ⟨500, errBody e.message⟩) ∧
    (∀ r, gradeInner body content = Except.ok r → grade body content = r) := by
  refine ⟨?_, ?_, ?_⟩
  · cases hg : gradeInner body content with
    | error e =>
      have hgr : grade body content = ⟨500, errBody e.message⟩ := by
        unfold grade
        rw [hg]
      rw [hgr]
      exact Or.inr (Or.inr (Or.inl rfl))
    | ok r =>
      have hgr : grade body content = r := by
        unfold grade
        rw [hg]
      rw [hgr]
      unfold gradeInner at hg
      cases hp : gradePhase1 body with
      | error e =>
        rw [hp] at hg
        exact absurd hg (by simp)
      | ok p =>
        rw [hp] at hg
        cases p with
        | resp r2 =>
          simp at hg
          have h400 := gradePhase1_resp_eq body r2 hp
          rw [← hg, h400]
          exact Or.inr (Or.inl rfl)
        | call req =>
          simp at hg
          rcases gradePhase2_ok_status content r hg with h | h
          · exact Or.inl h
          · exact Or.inr (Or.inr (Or.inr h))
  · intro e hg
    unfold grade
    rw [hg]
  · intro r hg
    unfold grade
    rw [hg]

/-- C7 witness: a truthy non-object body raises AttributeError at
data.get, and the handler turns it into the 500 with str(e). -/
theorem outer_handler_catches_all_w :
    grade (some (Json.num "7")) none = ⟨500, errBody (noAttr "int" "get").message⟩ :=
  (outer_handler_catches_all (some (Json.num "7")) none).2.1 (noAttr "int" "get") rfl

/-- C8 (confirmed): for every body whose essay extraction yields a
non-empty string, phase 1 returns exactly one completion call, with the
fixed model identifier, temperature 0.2 (the rational 1/5), and exactly
two messages: the fixed system rubric, and the user message with the
essay verbatim between triple-quote delimiters followed by the JSON-only
instruction. -/
theorem single_call_request_shape (body : Option Json) (essay : String)
    (h1 : essayOf (dataOf body) = Except.ok essay) (h2 : essay.isEmpty = false) :
    gradePhase1 body = Except.ok (Phase1.call
      ⟨"gpt-4o-mini", 1 / 5,
        [⟨"system", RUBRIC⟩,
         ⟨"user", "Essay:\n" ++ "\"\"\"" ++ essay ++ "\"\"\"" ++ "\n\n" ++
           "Respond with ONLY JSON, no extra text.\n"⟩]⟩) := by
  unfold gradePhase1
  rw [h1]
  simp [h2, mkCompletionRequest, userPrompt]

/-- C8 witness, at the sample body. -/
theorem single_call_request_shape_w :
    gradePhase1 sampleBody = Except.ok (Phase1.call
      ⟨"gpt-4o-mini", 1 / 5,
        [⟨"system", RUBRIC⟩,
         ⟨"user", "Essay:\n" ++ "\"\"\"" ++ "The weather is nice." ++ "\"\"\"" ++ "\n\n" ++
           "Respond with ONLY JSON, no extra text.\n"⟩]⟩) :=
  single_call_request_shape sampleBody "The weather is nice." rfl rfl

/-- C9 (confirmed): a reply that strict-parses as JSON which is not an
object reaches the key check, whose .keys() call raises AttributeError;
the outer handler turns it into the generic 500, not a 502 diagnostic. -/
theorem nonobject_reply_gives_500 (body : Option Json) (reply : String)
    (req : CompletionRequest) (v : Json)
    (h1 : gradePhase1 body = Except.ok (Phase1.call req))
    (h2 : jsonLoads (pyStrip reply.toList) = Except.ok v)
    (h3 : ∀ kvs, v ≠ Json.obj kvs) :
    grade body (some reply) =
      ⟨500, errBody (noAttr (pyTypeName v) "keys").message⟩ := by
  have hck : checkKeys v = Except.error (noAttr (pyTypeName v) "keys") := by
    cases v with
    | obj kvs => exact absurd rfl (h3 kvs)
    | null => rfl
    | bool b => rfl
    | num s => rfl
    | str s => rfl
    | arr xs => rfl
  simp only [grade, gradeInner, h1, gradePhase2, Option.getD_some, resolveReply, h2, hck]

/-- C9 witness: the reply consisting of the single digit 5. -/
theorem nonobject_reply_gives_500_w :
    grade sampleBody (some "5") = ⟨500, errBody (noAttr "int" "keys").message⟩ :=
  nonobject_reply_gives_500 sampleBody "5" (mkCompletionRequest "The weather is nice.")
    (Json.num "5") rfl rfl (fun _ h => Json.noConfusion h)

/-- C10 (confirmed): the key validation is only a subset check, so a parsed
object holding the seven required keys and any extra ones passes and is
returned at 200 in full, every extra key intact. -/
theorem extra_keys_intact_200 (body : Option Json) (reply : String)
    (req : CompletionRequest) (kvs : List (String × Json))
    (h1 : gradePhase1 body = Except.ok (Phase1.call req))
    (h2 : resolveReply (pyStrip reply.toList) = Except.ok (Sum.inl (Json.obj kvs)))
    (h3 : ∀ k ∈ requiredKeys, k ∈ keysOf kvs) :
    grade body (some reply) = ⟨200, Json.obj kvs⟩ := by
  have hall : (requiredKeys.all fun k => (keysOf kvs).contains k) = true := by
    rw [List.all_eq_true]
    intro k hk
    simpa using h3 k hk
  simp only [grade, gradeInner, h1, gradePhase2, Option.getD_some, h2, checkKeys, hall,
    if_true]

set_option maxRecDepth 100000 in
/-- C10 witness: the seven-key reply with an extra eighth key, returned in
full. -/
theorem extra_keys_intact_200_w :
    grade sampleBody (some ("\x7b\"task_response\":3,\"organization\":3,\"language_use\":3," ++
        "\"development\":3,\"mechanics\":3,\"overall_score\":3," ++
        "\"concise_rationale\":\"ok\",\"comments\":\"extra\"\x7d")) =
      ⟨200, Json.obj
        [("task_response", Json.num "3"), ("organization", Json.num "3"),
         ("language_use", Json.num "3"), ("development", Json.num "3"),
         ("mechanics", Json.num "3"), ("overall_score", Json.num "3"),
         ("concise_rationale", Json.str "ok"), ("comments", Json.str "extra")]⟩ :=
  extra_keys_intact_200 sampleBody _ (mkCompletionRequest "The weather is nice.")
    [("task_response", Json.num "3"), ("organization", Json.num "3"),
     ("language_use", Json.num "3"), ("development", Json.num "3"),
     ("mechanics", Json.num "3"), ("overall_score", Json.num "3"),
     ("concise_rationale", Json.str "ok"), ("comments", Json.str "extra")]
    rfl rfl (by decide)

/-! ### The brace-span extraction on an embedded object (claim C3) -/

/-- firstIdx over an append whose left part misses the target. -/
theorem firstIdx_append_of_not_mem (l1 l2 : List Char) (t : Char) (h : t ∉ l1) :
    firstIdx (l1 ++ l2) t = (firstIdx l2 t).map (fun n => n + l1.length) := by
  induction l1 with
  | nil =>
    cases hf : firstIdx l2 t <;> simp [hf]
  | cons c cs ih =>
    have hc : ¬ c = t := fun hh => h (hh ▸ List.mem_cons_self c cs)
    have h2 : t ∉ cs := fun hm => h (List.mem_cons_of_mem c hm)
    rw [List.cons_append]
    show (if c = t then some 0 else (firstIdx (cs ++ l2) t).map (· + 1)) = _
    rw [if_neg hc, ih h2]
    cases firstIdx l2 t with
    | none => rfl
    | some n =>
      simp [Function.comp, Nat.add_assoc]

/-- In a text made of an embedded object (starting with an opening brace,
ending with a closing brace) between a prefix free of opening braces and
a suffix free of closing braces, the greedy brace span is exactly the
embedded object text. -/
theorem extractBraceSpan_embedded (pre mid post : List Char)
    (hpre : lbrace ∉ pre) (hpost : rbrace ∉ post)
    (hhead : mid.head? = some lbrace) (hlast : mid.getLast? = some rbrace) :
    extractBraceSpan (pre ++ mid ++ post) = some mid := by
  obtain ⟨mtl, hm⟩ : ∃ mtl, mid = lbrace :: mtl := by
    cases mid with
    | nil => simp at hhead
    | cons a l =>
      simp only [List.head?_cons, Option.some.injEq] at hhead
      exact ⟨l, by rw [hhead]⟩
  obtain ⟨mrl, hr⟩ : ∃ mrl, mid.reverse = rbrace :: mrl := by
    have hh : mid.reverse.head? = some rbrace := by
      rw [List.head?_reverse]
      exact hlast
    cases hrev : mid.reverse with
    | nil => rw [hrev] at hh; simp at hh
    | cons a l =>
      rw [hrev] at hh
      simp only [List.head?_cons, Option.some.injEq] at hh
      exact ⟨l, by rw [hh]⟩
  have hmlen2 : 2 ≤ mid.length := by
    cases mtl with
    | nil =>
      exfalso
      rw [hm] at hlast
      simp at hlast
      exact absurd hlast (by decide)
    | cons x xs =>
      rw [hm]
      simp only [List.length_cons]
      omega
  have hf : firstIdx (pre ++ mid ++ post) lbrace = some pre.length := by
    rw [List.append_assoc, firstIdx_append_of_not_mem pre _ lbrace hpre, hm]
    rw [List.cons_append]
    show ((if lbrace = lbrace then some 0
      else (firstIdx (mtl ++ post) lbrace).map (· + 1)).map fun n => n + pre.length) =
        some pre.length
    rw [if_pos rfl]
    simp
  have hg : firstIdx (pre ++ mid ++ post).reverse rbrace = some post.length := by
    rw [List.reverse_append, List.reverse_append,
      firstIdx_append_of_not_mem post.reverse _ rbrace (by simpa using hpost), hr]
    rw [List.cons_append]
    show ((if rbrace = rbrace then some 0
      else (firstIdx (mrl ++ pre.reverse) rbrace).map (· + 1)).map
        fun n => n + post.reverse.length) = some post.length
    rw [if_pos rfl]
    simp
  have hlen : (pre ++ mid ++ post).length = pre.length + mid.length + post.length := by
    simp only [List.length_append]
  have hj : pre.length + mid.length + post.length - 1 - post.length =
      pre.length + mid.length - 1 := by omega
  have hk : pre.length + mid.length - 1 - pre.length + 1 = mid.length := by omega
  unfold extractBraceSpan lastIdx
  rw [hf, hg]
  dsimp only
  rw [hlen, hj, hk, if_pos (by omega), List.append_assoc, List.drop_left, List.take_left]

/-- C3 (confirmed): when strict parsing of the whole text fails and the
text is a valid JSON object embedded between a prefix with no opening
brace and a suffix with no closing brace, the repair extracts exactly the
embedded object text as the greedy brace span and parses it, so the
resolution step succeeds with the embedded object's value. -/
theorem embedded_object_parsed (pre mid post : List Char) (v : Json) (msg : PErr)
    (hpre : lbrace ∉ pre) (hpost : rbrace ∉ post)
    (hhead : mid.head? = some lbrace) (hlast : mid.getLast? = some rbrace)
    (hmid : jsonLoads mid = Except.ok v)
    (hfail : jsonLoads (pre ++ mid ++ post) = Except.error msg) :
    extractBraceSpan (pre ++ mid ++ post) = some mid ∧
    resolveReply (pre ++ mid ++ post) = Except.ok (Sum.inl v) := by
  have hspan := extractBraceSpan_embedded pre mid post hpre hpost hhead hlast
  refine ⟨hspan, ?_⟩
  simp only [resolveReply, hfail, hspan, hmid]

/-- C3 witness: a JSON object embedded in chatter, as in the spec's
example. -/
theorem embedded_object_parsed_w :
    extractBraceSpan ("Here is the result: ".toList ++ "\x7b\"a\":1\x7d".toList ++
        " Thanks".toList) = some "\x7b\"a\":1\x7d".toList ∧
    resolveReply ("Here is the result: ".toList ++ "\x7b\"a\":1\x7d".toList ++
        " Thanks".toList) = Except.ok (Sum.inl (Json.obj [("a", Json.num "1")])) :=
  embedded_object_parsed "Here is the result: ".toList "\x7b\"a\":1\x7d".toList
    " Thanks".toList (Json.obj [("a", Json.num "1")]) "Expecting value"
    (by decide) (by decide) rfl rfl rfl rfl

end Backend1
